import Mathlib

/-
  Verification development for the CryptoHistoricalData repository.

  The repository has two shells (a tkinter GUI in main.py and a Flask app in
  web.py) around one core routine, fetch_historical_data, which paginates
  Binance's bounded kline endpoint over a date range.  The pagination loop is
  textually identical in both files; only the final DataFrame normalization
  differs (main.py keeps quote_asset_volume, trades and the taker_buy columns,
  web.py keeps only OHLCV).  Both are embedded below.

  Modelling conventions:
  - Instants are integers: milliseconds since the Unix epoch.  The host
    timezone is taken to be UTC, so datetime.fromtimestamp(ms / 1000) is the
    identity on the millisecond value and strftime("%Y-%m-%d %H:%M:%S")
    denotes the instant truncated down to a whole second.
  - The upstream client (client.get_historical_klines with fixed symbol,
    interval, end_str and limit) is an injected oracle from the transmitted
    start parameter (in ms, always a whole second because it comes from the
    second-resolution strftime string) to either a batch of raw kline rows or
    a BinanceAPIException diagnostic message.
  - The unbounded Python while loop is embedded with explicit fuel; running
    out of fuel for every fuel value models non-termination of the loop.
  - Numeric coercion (pd.to_numeric) is embedded as exact decimal parsing
    into Rat; pandas floats carry no claim-relevant behavior here.
-/

namespace CryptoHist

/-- One raw kline row as returned by client.get_historical_klines: the twelve
positional fields of a Binance kline.  Field 0 (open time) and field 6 (close
time) arrive as integer epoch milliseconds; the other fields arrive as
strings. -/
structure RawKline where
  openTime : Nat
  open_ : String
  high : String
  low : String
  close : String
  volume : String
  close_time : Nat
  quote_asset_volume : String
  trades : String
  taker_buy_base : String
  taker_buy_quote : String
  ignore : String
deriving Repr, DecidableEq

/-- A timezone-aware instant, as produced by pd.to_datetime(unit = ms,
utc = True): the epoch milliseconds plus the utc marker. -/
structure Instant where
  ms : Nat
  utc : Bool
deriving Repr, DecidableEq

/-- One normalized row of the DataFrame built by main.py's
fetch_historical_data: close_time and ignore are dropped; open, high, low,
close, volume, quote_asset_volume and trades are coerced by pd.to_numeric;
taker_buy_base and taker_buy_quote are kept but stay strings (they are not in
num_cols). -/
structure Candle where
  timestamp : Instant
  open_ : Rat
  high : Rat
  low : Rat
  close : Rat
  volume : Rat
  quote_asset_volume : Rat
  trades : Rat
  taker_buy_base : String
  taker_buy_quote : String
deriving Repr, DecidableEq

/-- One normalized row of the DataFrame built by web.py's
fetch_historical_data: only timestamp and the five OHLCV columns are kept,
all five coerced by pd.to_numeric. -/
structure CandleWeb where
  timestamp : Instant
  open_ : Rat
  high : Rat
  low : Rat
  close : Rat
  volume : Rat
deriving Repr, DecidableEq

/-- The injected upstream handle: maps the transmitted start parameter (epoch
ms denoted by the start_str string) to a batch of raw klines, or to the
diagnostic message of a BinanceAPIException.  Symbol, interval, end_str and
limit are fixed for the whole fetch and are absorbed into the oracle. -/
abbrev Source := Nat → Except String (List RawKline)

/-- The instant denoted by strftime("%Y-%m-%d %H:%M:%S") applied to a
millisecond instant: the format string has second resolution, so the
sub-second part is truncated away. -/
def strftime_seconds (ms : Nat) : Nat := ms / 1000 * 1000

/-- Result of the pagination while loop in fetch_historical_data.  apiError
is the RuntimeError raised from the BinanceAPIException handler; outOfFuel
marks an execution that is still looping after the given number of
iterations. -/
inductive LoopResult where
  | ok (klines : List RawKline)
  | apiError (msg : String)
  | outOfFuel
deriving Repr, DecidableEq

/-- The pagination loop of fetch_historical_data (identical in main.py and
web.py):

  while next_start < end_dt:
      batch = client.get_historical_klines(..., start_str =
          next_start.strftime("%Y-%m-%d %H:%M:%S"), ...)   (may raise)
      if not batch: break
      klines.extend(batch)
      last_ts = batch[-1][0]
      next_start = datetime.fromtimestamp(last_ts / 1000)
                   + timedelta(milliseconds = 1)

next_start is kept at millisecond precision (last_ts + 1), but the request
transmits only strftime_seconds next_start. -/
def fetchLoop (src : Source) (end_ms : Nat) : Nat → Nat → List RawKline → LoopResult
  | 0, next_start, klines =>
      if next_start < end_ms then LoopResult.outOfFuel else LoopResult.ok klines
  | fuel + 1, next_start, klines =>
      if next_start < end_ms then
        match src (strftime_seconds next_start) with
        | Except.error e => LoopResult.apiError ("Binance API error: " ++ e)
        | Except.ok batch =>
          if hb : batch = [] then LoopResult.ok klines
          else fetchLoop src end_ms fuel ((batch.getLast hb).openTime + 1) (klines ++ batch)
      else LoopResult.ok klines

/-- The sequence of start parameters transmitted to the upstream source by
fetchLoop from the given cursor (observational companion of fetchLoop). -/
def fetchTrace (src : Source) (end_ms : Nat) : Nat → Nat → List Nat
  | 0, _ => []
  | fuel + 1, next_start =>
      if next_start < end_ms then
        strftime_seconds next_start ::
          (match src (strftime_seconds next_start) with
           | Except.error _ => []
           | Except.ok batch =>
             if hb : batch = [] then []
             else fetchTrace src end_ms fuel ((batch.getLast hb).openTime + 1))
      else []

/-- The sequence of non-empty batches accepted (extended into klines) by
fetchLoop from the given cursor (observational companion of fetchLoop). -/
def batchTrace (src : Source) (end_ms : Nat) : Nat → Nat → List (List RawKline)
  | 0, _ => []
  | fuel + 1, next_start =>
      if next_start < end_ms then
        match src (strftime_seconds next_start) with
        | Except.error _ => []
        | Except.ok batch =>
          if hb : batch = [] then []
          else batch :: batchTrace src end_ms fuel ((batch.getLast hb).openTime + 1)
      else []

/-- Accumulating decimal-digit parser underlying to_numeric. -/
def digitsToNat : List Char → Nat → Option Nat
  | [], acc => some acc
  | c :: cs, acc =>
      if c.isDigit then digitsToNat cs (acc * 10 + (c.toNat - 48)) else none

/-- Split a character list at the first dot, if any. -/
def splitDot : List Char → List Char × Option (List Char)
  | [] => ([], none)
  | c :: cs =>
      if c = '.' then ([], some cs)
      else
        let rest := splitDot cs
        (c :: rest.1, rest.2)

/-- pd.to_numeric on one cell: exact decimal parsing of an optionally signed
decimal string into Rat; none models the coercion raising. -/
def to_numeric (s : String) : Option Rat :=
  let cs := s.data
  let neg : Bool := match cs with | '-' :: _ => true | _ => false
  let body : List Char := match cs with | '-' :: rest => rest | _ => cs
  match splitDot body with
  | (intPart, none) =>
      if intPart = [] then none
      else (digitsToNat intPart 0).map (fun n => if neg then -(n : Rat) else (n : Rat))
  | (intPart, some fracPart) =>
      if intPart = [] ∧ fracPart = [] then none
      else
        match digitsToNat intPart 0, digitsToNat fracPart 0 with
        | some n, some f =>
            let q : Rat := ((n * 10 ^ fracPart.length + f : Nat) : Rat) /
              ((10 ^ fracPart.length : Nat) : Rat)
            some (if neg then -q else q)
        | _, _ => none

/-- main.py normalization of one accumulated row: drop close_time and ignore,
pd.to_numeric on open, high, low, close, volume, quote_asset_volume and
trades, pd.to_datetime(timestamp, unit = ms, utc = True). -/
def normalize_row (r : RawKline) : Option Candle :=
  match to_numeric r.open_, to_numeric r.high, to_numeric r.low, to_numeric r.close,
        to_numeric r.volume, to_numeric r.quote_asset_volume, to_numeric r.trades with
  | some o, some h, some l, some c, some v, some qv, some tr =>
      some { timestamp := { ms := r.openTime, utc := true },
             open_ := o, high := h, low := l, close := c, volume := v,
             quote_asset_volume := qv, trades := tr,
             taker_buy_base := r.taker_buy_base,
             taker_buy_quote := r.taker_buy_quote }
  | _, _, _, _, _, _, _ => none

/-- web.py normalization of one accumulated row: select timestamp and OHLCV
only, pd.to_numeric on the five OHLCV columns, pd.to_datetime(timestamp,
unit = ms, utc = True). -/
def normalize_row_web (r : RawKline) : Option CandleWeb :=
  match to_numeric r.open_, to_numeric r.high, to_numeric r.low, to_numeric r.close,
        to_numeric r.volume with
  | some o, some h, some l, some c, some v =>
      some { timestamp := { ms := r.openTime, utc := true },
             open_ := o, high := h, low := l, close := c, volume := v }
  | _, _, _, _, _ => none

/-- main.py normalization of the accumulated kline list, row by row (pandas
applies the coercions columnwise; rowwise application is equivalent). -/
def normalize : List RawKline → Option (List Candle)
  | [] => some []
  | r :: rs =>
      match normalize_row r, normalize rs with
      | some c, some cs => some (c :: cs)
      | _, _ => none

/-- web.py normalization of the accumulated kline list, row by row. -/
def normalize_web : List RawKline → Option (List CandleWeb)
  | [] => some []
  | r :: rs =>
      match normalize_row_web r, normalize_web rs with
      | some c, some cs => some (c :: cs)
      | _, _ => none

/-- Result of main.py's fetch_historical_data: the normalized DataFrame, the
RuntimeError raised on a BinanceAPIException, a pandas coercion failure, or a
loop still running after the given fuel. -/
inductive FetchResult where
  | ok (series : List Candle)
  | apiError (msg : String)
  | normError
  | outOfFuel
deriving Repr, DecidableEq

/-- Result of web.py's fetch_historical_data. -/
inductive FetchResultWeb where
  | ok (series : List CandleWeb)
  | apiError (msg : String)
  | normError
  | outOfFuel
deriving Repr, DecidableEq

/-- main.py fetch_historical_data(symbol, interval, start_dt, end_dt): run the
pagination loop from start_dt, then normalize the accumulated klines.  symbol
and interval are fixed and absorbed into src. -/
def fetch_historical_data (src : Source) (start_ms end_ms fuel : Nat) : FetchResult :=
  match fetchLoop src end_ms fuel start_ms [] with
  | LoopResult.apiError m => FetchResult.apiError m
  | LoopResult.outOfFuel => FetchResult.outOfFuel
  | LoopResult.ok klines =>
      match normalize klines with
      | some cs => FetchResult.ok cs
      | none => FetchResult.normError

/-- web.py fetch_historical_data: identical loop, OHLCV-only normalization. -/
def fetch_historical_data_web (src : Source) (start_ms end_ms fuel : Nat) : FetchResultWeb :=
  match fetchLoop src end_ms fuel start_ms [] with
  | LoopResult.apiError m => FetchResultWeb.apiError m
  | LoopResult.outOfFuel => FetchResultWeb.outOfFuel
  | LoopResult.ok klines =>
      match normalize_web klines with
      | some cs => FetchResultWeb.ok cs
      | none => FetchResultWeb.normError

/-- HistoricalApp._gather_inputs (main.py) and the equivalent check in
web.py's index route: reject the range before fetch_historical_data is ever
called.  Both files use the same message string. -/
def gather_inputs (start_ms end_ms : Nat) : Except String (Nat × Nat) :=
  if start_ms ≥ end_ms then Except.error "Start date must be before end date."
  else Except.ok (start_ms, end_ms)

/-- Outcome of one GUI task (_on_plot / _on_save in main.py, the POST branch
of index in web.py): validation error, or the fetch result. -/
inductive AppResult where
  | invalidRange (msg : String)
  | fetched (r : FetchResult)
deriving Repr, DecidableEq

/-- The shell task: gather and validate inputs, and only on success call
fetch_historical_data. -/
def on_plot_task (src : Source) (start_ms end_ms fuel : Nat) : AppResult :=
  match gather_inputs start_ms end_ms with
  | Except.error m => AppResult.invalidRange m
  | Except.ok se => AppResult.fetched (fetch_historical_data src se.1 se.2 fuel)

/-- The start parameters transmitted to the upstream source by one shell
task: none at all when validation rejects the range. -/
def on_plot_requests (src : Source) (start_ms end_ms fuel : Nat) : List Nat :=
  match gather_inputs start_ms end_ms with
  | Except.error _ => []
  | Except.ok se => fetchTrace src se.2 fuel se.1

/-- Strict ascending order of a list of open times: sorted ascending with no
two entries equal (the Series invariant stated by the spec). -/
def strictlyAscending : List Nat → Bool
  | [] => true
  | [_] => true
  | a :: b :: rest => Nat.blt a b && strictlyAscending (b :: rest)

/-- A raw kline with the given open time and parseable numeric fields. -/
def mkRow (t : Nat) : RawKline :=
  { openTime := t, open_ := "1", high := "1", low := "1", close := "1",
    volume := "1", close_time := 0, quote_asset_volume := "1", trades := "1",
    taker_buy_base := "1", taker_buy_quote := "1", ignore := "0" }

/-- The main.py normalization of mkRow t. -/
def mkCandle (t : Nat) : Candle :=
  { timestamp := { ms := t, utc := true },
    open_ := 1, high := 1, low := 1, close := 1, volume := 1,
    quote_asset_volume := 1, trades := 1,
    taker_buy_base := "1", taker_buy_quote := "1" }

/-- A source holding exactly one candle, with open time 1000 ms, visible from
every start parameter at or before 1000: every candle it returns has open
time at or after the transmitted start parameter. -/
def srcBoundary : Source := fun p =>
  if p ≤ 1000 then Except.ok [mkRow 1000] else Except.ok []

/-- A source delivering two batches then no more data: open times 1000 and
2000 from start parameter 0, open time 3000 from start parameter 2000. -/
def srcTwoBatches : Source := fun p =>
  if p = 0 then Except.ok [mkRow 1000, mkRow 2000]
  else if p = 2000 then Except.ok [mkRow 3000]
  else Except.ok []

/-- A source returning one batch whose rows are out of order and contain a
repeated open time, then no more data. -/
def srcOutOfOrder : Source := fun p =>
  if p = 0 then Except.ok [mkRow 3000, mkRow 1500, mkRow 1500] else Except.ok []

/-- A source whose first batch succeeds and whose second request fails with a
BinanceAPIException carrying the diagnostic message boom. -/
def srcFailSecond : Source := fun p =>
  if p = 0 then Except.ok [mkRow 1000] else Except.error "boom"

/-- A source with no data at all. -/
def srcEmpty : Source := fun _ => Except.ok []

/-- One of two syntactically different but extensionally equal sources. -/
def srcDetA : Source := fun p =>
  if p = 0 then Except.ok [mkRow 1000] else Except.ok []

/-- The other of two syntactically different but extensionally equal
sources. -/
def srcDetB : Source := fun p =>
  if p ≤ 0 then Except.ok [mkRow 1000] else Except.ok []

/-- Normalization stamps each candle with the row's open time in epoch ms and
the utc marker. -/
theorem normalize_row_timestamp (r : RawKline) (c : Candle)
    (h : normalize_row r = some c) : c.timestamp = { ms := r.openTime, utc := true } := by
  unfold normalize_row at h
  split at h
  · injection h with h
    subst h
    rfl
  · simp at h

/-- Normalization preserves the number of rows. -/
theorem normalize_length (rows : List RawKline) :
    ∀ cs : List Candle, normalize rows = some cs → cs.length = rows.length := by
  induction rows with
  | nil =>
    intro cs h
    unfold normalize at h
    injection h with h
    subst h
    rfl
  | cons r rs ih =>
    intro cs h
    unfold normalize at h
    split at h
    · rename_i c0 cs0 hr hrs
      injection h with h
      subst h
      simp [ih cs0 hrs]
    · simp at h

/-- Normalization preserves the open times, in order. -/
theorem normalize_openTimes (rows : List RawKline) :
    ∀ cs : List Candle, normalize rows = some cs →
      cs.map (fun c => c.timestamp.ms) = rows.map RawKline.openTime := by
  induction rows with
  | nil =>
    intro cs h
    unfold normalize at h
    injection h with h
    subst h
    rfl
  | cons r rs ih =>
    intro cs h
    unfold normalize at h
    split at h
    · rename_i c0 cs0 hr hrs
      injection h with h
      subst h
      have ht := normalize_row_timestamp r c0 hr
      simp [ih cs0 hrs, ht]
    · simp at h

/-- Every candle produced by normalization carries the utc marker. -/
theorem normalize_utc (rows : List RawKline) :
    ∀ cs : List Candle, normalize rows = some cs →
      ∀ c ∈ cs, c.timestamp.utc = true := by
  induction rows with
  | nil =>
    intro cs h c hc
    unfold normalize at h
    injection h with h
    subst h
    simp at hc
  | cons r rs ih =>
    intro cs h c hc
    unfold normalize at h
    split at h
    · rename_i c0 cs0 hr hrs
      injection h with h
      subst h
      rcases List.mem_cons.mp hc with rfl | hmem
      · rw [normalize_row_timestamp r c hr]
      · exact ih cs0 hrs c hmem
    · simp at h

/-- A successful loop run returns the initial accumulator followed by the
accepted batches, concatenated in acceptance order. -/
theorem fetchLoop_ok_eq (src : Source) (e : Nat) :
    ∀ (fuel c : Nat) (acc rows : List RawKline),
      fetchLoop src e fuel c acc = LoopResult.ok rows →
      rows = acc ++ (batchTrace src e fuel c).flatten := by
  intro fuel
  induction fuel with
  | zero =>
    intro c acc rows h
    simp only [fetchLoop] at h
    by_cases hc : c < e
    · rw [if_pos hc] at h
      cases h
    · rw [if_neg hc] at h
      injection h with h
      subst h
      simp [batchTrace]
  | succ n ih =>
    intro c acc rows h
    simp only [fetchLoop] at h
    by_cases hc : c < e
    · rw [if_pos hc] at h
      cases hsrc : src (strftime_seconds c) with
      | error m =>
        rw [hsrc] at h
        cases h
      | ok batch =>
        rw [hsrc] at h
        dsimp only at h
        by_cases hb : batch = []
        · rw [dif_pos hb] at h
          injection h with h
          subst h
          simp [batchTrace, hc, hsrc, hb]
        · rw [dif_neg hb] at h
          have hrec := ih ((batch.getLast hb).openTime + 1) (acc ++ batch) rows h
          rw [hrec]
          simp [batchTrace, hc, hsrc, hb]
    · rw [if_neg hc] at h
      injection h with h
      subst h
      simp [batchTrace, hc]

/-- If a request in the transmitted trace fails, the loop aborts with the
RuntimeError carrying that diagnostic, whatever the accumulator holds. -/
theorem fetchLoop_error_of_trace (src : Source) (e : Nat) :
    ∀ (fuel c p : Nat) (msg : String),
      p ∈ fetchTrace src e fuel c → src p = Except.error msg →
      ∀ acc, fetchLoop src e fuel c acc = LoopResult.apiError ("Binance API error: " ++ msg) := by
  intro fuel
  induction fuel with
  | zero =>
    intro c p msg hp _ acc
    simp [fetchTrace] at hp
  | succ n ih =>
    intro c p msg hp he acc
    simp only [fetchTrace] at hp
    by_cases hc : c < e
    · rw [if_pos hc] at hp
      cases hsrc : src (strftime_seconds c) with
      | error m =>
        rw [hsrc] at hp
        simp at hp
        subst hp
        rw [hsrc] at he
        injection he with he
        subst he
        simp [fetchLoop, hc, hsrc]
      | ok batch =>
        rw [hsrc] at hp
        rcases List.mem_cons.mp hp with rfl | hp'
        · rw [hsrc] at he
          cases he
        · dsimp only at hp'
          by_cases hb : batch = []
          · rw [dif_pos hb] at hp'
            simp at hp'
          · rw [dif_neg hb] at hp'
            have hrec := ih ((batch.getLast hb).openTime + 1) p msg hp' he (acc ++ batch)
            simp [fetchLoop, hc, hsrc, hb, hrec]
    · rw [if_neg hc] at hp
      simp at hp

/-- The loop is a function of the responses of the source: two sources that
answer every request identically drive the loop identically. -/
theorem fetchLoop_congr (s1 s2 : Source) (hs : ∀ p, s1 p = s2 p) (e : Nat) :
    ∀ fuel c acc, fetchLoop s1 e fuel c acc = fetchLoop s2 e fuel c acc := by
  intro fuel
  induction fuel with
  | zero =>
    intro c acc
    simp [fetchLoop]
  | succ n ih =>
    intro c acc
    simp only [fetchLoop]
    by_cases hc : c < e
    · rw [if_pos hc, if_pos hc]
      have hp := hs (strftime_seconds c)
      cases hsrc : s1 (strftime_seconds c) with
      | error m =>
        rw [hsrc] at hp
        rw [hp.symm]
      | ok batch =>
        rw [hsrc] at hp
        rw [hp.symm]
        dsimp only
        by_cases hb : batch = []
        · rw [dif_pos hb, dif_pos hb]
        · rw [dif_neg hb, dif_neg hb]
          exact ih _ _
    · rw [if_neg hc, if_neg hc]

/-- A successful fetch factors through a successful loop run and a successful
normalization. -/
theorem fetch_ok_inv (src : Source) (s e fuel : Nat) (cs : List Candle)
    (h : fetch_historical_data src s e fuel = FetchResult.ok cs) :
    ∃ rows, fetchLoop src e fuel s [] = LoopResult.ok rows ∧ normalize rows = some cs := by
  unfold fetch_historical_data at h
  cases hl : fetchLoop src e fuel s [] with
  | apiError m =>
    rw [hl] at h
    cases h
  | outOfFuel =>
    rw [hl] at h
    cases h
  | ok rows =>
    rw [hl] at h
    dsimp only at h
    cases hn : normalize rows with
    | none =>
      rw [hn] at h
      cases h
    | some cs2 =>
      rw [hn] at h
      injection h with h
      subst h
      exact ⟨rows, rfl, hn⟩

/-- With the loop condition already false, the loop returns its accumulator
untouched and transmits nothing, for any fuel. -/
theorem fetchLoop_degenerate (src : Source) (e : Nat) (hc : ¬ s < e) :
    ∀ fuel acc, fetchLoop src e fuel s acc = LoopResult.ok acc ∧ fetchTrace src e fuel s = [] := by
  intro fuel acc
  cases fuel with
  | zero => simp [fetchLoop, fetchTrace, hc]
  | succ n => simp [fetchLoop, fetchTrace, hc]

/-- C1: the spec claims that after a batch whose last record has open time T
the start parameter of the next request is strictly after T.  The in-memory
cursor next_start does advance to T + 1 ms, but strftime formats it at second
resolution, so against srcBoundary (single candle, open time T = 1000 ms,
fetched from start 0 with end 5000) the transmitted start parameters are
0, 1000, 1000, ...: from the second request on the start parameter equals T,
never strictly after it. -/
theorem c1_start_param_not_strictly_after :
    fetchTrace srcBoundary 5000 3 0 = [0, 1000, 1000]
    ∧ strftime_seconds (1000 + 1) = 1000
    ∧ ¬ 1000 < strftime_seconds (1000 + 1) := by decide

/-- C2 counterexample: the claim asserts the returned Series is sorted
ascending with no duplicate open times even when the source misbehaves, but
the code performs no final sort and no deduplication: a single accepted batch
with open times 3000, 1500, 1500 is returned exactly in that order, neither
sorted nor duplicate-free. -/
theorem c2_counterexample :
    fetch_historical_data srcOutOfOrder 0 5000 5
      = FetchResult.ok [mkCandle 3000, mkCandle 1500, mkCandle 1500]
    ∧ strictlyAscending ([mkCandle 3000, mkCandle 1500, mkCandle 1500].map
        (fun c => c.timestamp.ms)) = false := by decide

/-- C2 amended: the returned Series preserves acceptance order exactly: its
open times are those of the accepted batches concatenated in order, with no
final sort and no deduplication; consequently it is strictly ascending
precisely when the accepted records already arrive strictly ascending. -/
theorem c2_series_preserves_acceptance_order (src : Source) (s e fuel : Nat)
    (cs : List Candle) (h : fetch_historical_data src s e fuel = FetchResult.ok cs) :
    cs.map (fun c => c.timestamp.ms)
      = ((batchTrace src e fuel s).flatten.map RawKline.openTime)
    ∧ (strictlyAscending ((batchTrace src e fuel s).flatten.map RawKline.openTime) = true →
        strictlyAscending (cs.map fun c => c.timestamp.ms) = true) := by
  obtain ⟨rows, hl, hn⟩ := fetch_ok_inv src s e fuel cs h
  have hrows := fetchLoop_ok_eq src e fuel s [] rows hl
  rw [List.nil_append] at hrows
  have hmap := normalize_openTimes rows cs hn
  subst hrows
  exact ⟨hmap, fun ha => by rw [hmap]; exact ha⟩

/-- C2 witness: a two-batch in-order run, evaluated concretely. -/
theorem c2_witness :
    [mkCandle 1000, mkCandle 2000, mkCandle 3000].map (fun c => c.timestamp.ms)
      = ((batchTrace srcTwoBatches 10000 10 0).flatten.map RawKline.openTime) :=
  (c2_series_preserves_acceptance_order srcTwoBatches 0 10000 10
    [mkCandle 1000, mkCandle 2000, mkCandle 3000] (by decide)).1

/-- C3: if any transmitted batch request fails, the whole fetch aborts with
the RuntimeError (the UpstreamError of the spec) whose message carries the
upstream diagnostic, and no Series, in particular no partial Series built
from earlier successful batches, is ever returned. -/
theorem c3_upstream_failure_aborts (src : Source) (s e fuel p : Nat) (msg : String)
    (hp : p ∈ fetchTrace src e fuel s) (he : src p = Except.error msg) :
    fetch_historical_data src s e fuel = FetchResult.apiError ("Binance API error: " ++ msg)
    ∧ ∀ cs, fetch_historical_data src s e fuel ≠ FetchResult.ok cs := by
  have hl := fetchLoop_error_of_trace src e fuel s p msg hp he []
  constructor
  · unfold fetch_historical_data
    rw [hl]
  · intro cs hcs
    unfold fetch_historical_data at hcs
    rw [hl] at hcs
    cases hcs

/-- C3 witness: the second of three planned batches fails; the fetch aborts
with the diagnostic preserved and the first accepted batch is discarded. -/
theorem c3_witness :
    fetch_historical_data srcFailSecond 0 5000 5
      = FetchResult.apiError ("Binance API error: " ++ "boom") :=
  (c3_upstream_failure_aborts srcFailSecond 0 5000 5 1000 "boom" (by decide) rfl).1

/-- C4: a query with start at or after end is rejected by the input
validation (ValueError in main.py, flash-and-redirect in web.py, both with
the same message, the InvalidRangeError of the spec) before
fetch_historical_data is invoked, so zero requests reach the upstream
source. -/
theorem c4_invalid_range_rejected (src : Source) (s e fuel : Nat) (h : e ≤ s) :
    on_plot_task src s e fuel = AppResult.invalidRange "Start date must be before end date."
    ∧ on_plot_requests src s e fuel = [] := by
  have hg : gather_inputs s e = Except.error "Start date must be before end date." := by
    unfold gather_inputs
    rw [if_pos h]
  constructor
  · unfold on_plot_task
    rw [hg]
  · unfold on_plot_requests
    rw [hg]

/-- C4 witness: both the equal and the reversed range are rejected with zero
transmitted requests. -/
theorem c4_witness :
    on_plot_task srcTwoBatches 5 5 3
      = AppResult.invalidRange "Start date must be before end date."
    ∧ on_plot_requests srcTwoBatches 7 5 3 = [] :=
  ⟨(c4_invalid_range_rejected srcTwoBatches 5 5 3 (by decide)).1,
   (c4_invalid_range_rejected srcTwoBatches 7 5 3 (by decide)).2⟩

/-- C5: a batch request answered with zero records terminates the loop as
success: the loop returns exactly what was accumulated so far, and a fetch
whose first batch is empty returns the valid empty Series. -/
theorem c5_empty_batch_is_success (src : Source) (e fuel c : Nat) (acc : List RawKline)
    (hc : c < e) (hb : src (strftime_seconds c) = Except.ok []) :
    fetchLoop src e (fuel + 1) c acc = LoopResult.ok acc
    ∧ fetch_historical_data src c e (fuel + 1) = FetchResult.ok [] := by
  have h1 : ∀ a : List RawKline, fetchLoop src e (fuel + 1) c a = LoopResult.ok a := by
    intro a
    simp [fetchLoop, hc, hb]
  refine ⟨h1 acc, ?_⟩
  unfold fetch_historical_data
  rw [h1 []]
  rfl

/-- C5 witness: an exhausted source terminates the loop at once, keeping the
accumulator, and yields the empty Series. -/
theorem c5_witness :
    fetchLoop srcEmpty 1000 3 0 [mkRow 1] = LoopResult.ok [mkRow 1]
    ∧ fetch_historical_data srcEmpty 0 1000 3 = FetchResult.ok [] :=
  c5_empty_batch_is_success srcEmpty 1000 2 0 [mkRow 1] (by decide) rfl

/-- C6: normalization produces numeric-typed price and volume fields (exact
values of pd.to_numeric on the raw strings), timezone-aware instant-typed
open times converted from epoch milliseconds, and is insensitive to the
bookkeeping fields: close_time and ignore (and, for web.py, also
quote_asset_volume, trades and the taker_buy columns) do not influence the
normalized row; every candle of a successfully fetched Series carries the
utc marker. -/
theorem c6_schema_normalization (r : RawKline) (ct : Nat) (ig qa tr tb tq : String) :
    normalize_row { r with close_time := ct, ignore := ig } = normalize_row r
    ∧ normalize_row_web
        { r with close_time := ct, ignore := ig, quote_asset_volume := qa,
                 trades := tr, taker_buy_base := tb, taker_buy_quote := tq }
      = normalize_row_web r
    ∧ (∀ c : Candle, normalize_row r = some c →
        c.timestamp = { ms := r.openTime, utc := true }
        ∧ some c.open_ = to_numeric r.open_
        ∧ some c.high = to_numeric r.high
        ∧ some c.low = to_numeric r.low
        ∧ some c.close = to_numeric r.close
        ∧ some c.volume = to_numeric r.volume
        ∧ some c.quote_asset_volume = to_numeric r.quote_asset_volume
        ∧ some c.trades = to_numeric r.trades)
    ∧ (∀ cw : CandleWeb, normalize_row_web r = some cw →
        cw.timestamp = { ms := r.openTime, utc := true })
    ∧ (∀ (src : Source) (s e fuel : Nat) (cs : List Candle),
        fetch_historical_data src s e fuel = FetchResult.ok cs →
        ∀ c ∈ cs, c.timestamp.utc = true) := by
  refine ⟨?_, ?_, ?_, ?_, ?_⟩
  · cases r
    rfl
  · cases r
    rfl
  · intro c hcand
    unfold normalize_row at hcand
    split at hcand
    · rename_i o h l cl v qv trd ho hh hl0 hcl hv hqv htr
      injection hcand with hcand
      subst hcand
      exact ⟨rfl, ho.symm, hh.symm, hl0.symm, hcl.symm, hv.symm, hqv.symm, htr.symm⟩
    · simp at hcand
  · intro cw hcw
    unfold normalize_row_web at hcw
    split at hcw
    · rename_i o h l cl v ho hh hl0 hcl hv
      injection hcw with hcw
      subst hcw
      rfl
    · simp at hcw
  · intro src s e fuel cs hfetch c hc
    obtain ⟨rows, hl, hn⟩ := fetch_ok_inv src s e fuel cs hfetch
    exact normalize_utc rows cs hn c hc

/-- C6 witness: a concrete row with extra bookkeeping values normalizes
identically, and its candle carries the utc-marked instant. -/
theorem c6_witness :
    normalize_row { mkRow 7 with close_time := 42, ignore := "x" } = normalize_row (mkRow 7)
    ∧ (mkCandle 7).timestamp = { ms := 7, utc := true } :=
  ⟨(c6_schema_normalization (mkRow 7) 42 "x" "a" "b" "c" "d").1,
   ((c6_schema_normalization (mkRow 7) 42 "x" "a" "b" "c" "d").2.2.1
      (mkCandle 7) (by decide)).1⟩

/-- C7: whenever the fetch returns a Series, its length equals the sum of
the lengths of the accepted batches: every accepted record appears exactly
once, none dropped, none duplicated. -/
theorem c7_series_length_eq_sum (src : Source) (s e fuel : Nat) (cs : List Candle)
    (h : fetch_historical_data src s e fuel = FetchResult.ok cs) :
    cs.length = ((batchTrace src e fuel s).map List.length).sum := by
  obtain ⟨rows, hl, hn⟩ := fetch_ok_inv src s e fuel cs h
  have hrows := fetchLoop_ok_eq src e fuel s [] rows hl
  rw [List.nil_append] at hrows
  rw [normalize_length rows cs hn, hrows]
  simp [List.length_flatten]

/-- C7 witness: two accepted batches of lengths 2 and 1 followed by an empty
batch yield a Series of length 3. -/
theorem c7_witness :
    fetch_historical_data srcTwoBatches 0 10000 10
      = FetchResult.ok [mkCandle 1000, mkCandle 2000, mkCandle 3000]
    ∧ [mkCandle 1000, mkCandle 2000, mkCandle 3000].length
      = ((batchTrace srcTwoBatches 10000 10 0).map List.length).sum :=
  ⟨by decide, c7_series_length_eq_sum srcTwoBatches 0 10000 10 _ (by decide)⟩

/-- The loop state against srcBoundary is stuck at cursor 1001 ms: the
transmitted start parameter truncates back to 1000, the source re-returns
the open-time-1000 candle, and the recomputed cursor is 1001 again. -/
theorem srcBoundary_stuck :
    ∀ fuel acc, fetchLoop srcBoundary 5000 fuel 1001 acc = LoopResult.outOfFuel := by
  intro fuel
  induction fuel with
  | zero =>
    intro acc
    simp [fetchLoop]
  | succ n ih =>
    intro acc
    have hsrc : srcBoundary (strftime_seconds 1001) = Except.ok [mkRow 1000] := rfl
    simp only [fetchLoop]
    rw [if_pos (by norm_num), hsrc]
    dsimp only
    rw [dif_neg (by simp)]
    exact ih _

/-- C8: the spec claims the loop terminates for every source whose candles
have open times at or after the requested window start.  srcBoundary meets
that hypothesis for every transmitted start parameter, yet the fetch from
start 0 to end 5000 runs out of any amount of fuel: the cursor does not
strictly advance (it recomputes 1001 ms forever, because the second-truncated
start parameter 1000 re-fetches the boundary candle), so the while loop never
terminates. -/
theorem c8_loop_can_run_forever :
    (∀ p rows, srcBoundary p = Except.ok rows → ∀ r ∈ rows, p ≤ r.openTime)
    ∧ ∀ fuel, fetch_historical_data srcBoundary 0 5000 fuel = FetchResult.outOfFuel := by
  constructor
  · intro p rows hrows r hr
    unfold srcBoundary at hrows
    by_cases hp : p ≤ 1000
    · rw [if_pos hp] at hrows
      injection hrows with hrows
      subst hrows
      simp at hr
      subst hr
      exact hp
    · rw [if_neg hp] at hrows
      injection hrows with hrows
      subst hrows
      simp at hr
  · intro fuel
    unfold fetch_historical_data
    cases fuel with
    | zero =>
      rw [show fetchLoop srcBoundary 5000 0 0 [] = LoopResult.outOfFuel from by simp [fetchLoop]]
    | succ n =>
      have h1 : fetchLoop srcBoundary 5000 (n + 1) 0 [] = LoopResult.outOfFuel := by
        have hsrc : srcBoundary (strftime_seconds 0) = Except.ok [mkRow 1000] := rfl
        simp only [fetchLoop]
        rw [if_pos (by norm_num), hsrc]
        dsimp only
        rw [dif_neg (by simp)]
        exact srcBoundary_stuck n _
      rw [h1]

/-- C8 witness: the source property and the divergence, instantiated. -/
theorem c8_witness :
    (0 : Nat) ≤ (mkRow 1000).openTime
    ∧ fetch_historical_data srcBoundary 0 5000 7 = FetchResult.outOfFuel :=
  ⟨c8_loop_can_run_forever.1 0 [mkRow 1000] rfl (mkRow 1000) (by decide),
   c8_loop_can_run_forever.2 7⟩

/-- C9: the fetch is a deterministic function of the query and the source's
responses: two sources answering every request identically (an unchanged
upstream) produce identical Series, candle for candle. -/
theorem c9_deterministic_fetch (s1 s2 : Source) (hs : ∀ p, s1 p = s2 p) (s e fuel : Nat) :
    fetch_historical_data s1 s e fuel = fetch_historical_data s2 s e fuel := by
  unfold fetch_historical_data
  rw [fetchLoop_congr s1 s2 hs e fuel s []]

/-- C9 witness: two syntactically different, extensionally equal sources. -/
theorem c9_witness :
    fetch_historical_data srcDetA 0 3000 5 = fetch_historical_data srcDetB 0 3000 5 :=
  c9_deterministic_fetch srcDetA srcDetB (fun p => by cases p <;> rfl) 0 3000 5

/-- C10: calling fetch_historical_data directly with start at or after end
raises nothing: the while condition is false at once, zero requests are
transmitted, and both variants return the empty Series of the full
normalized schema (the typed empty candle list). -/
theorem c10_degenerate_range_is_empty_series (src : Source) (s e fuel : Nat) (h : e ≤ s) :
    fetch_historical_data src s e fuel = FetchResult.ok []
    ∧ fetch_historical_data_web src s e fuel = FetchResultWeb.ok []
    ∧ fetchTrace src e fuel s = [] := by
  have hc : ¬ s < e := Nat.not_lt.mpr h
  obtain ⟨hloop, htrace⟩ := fetchLoop_degenerate src e hc fuel []
  refine ⟨?_, ?_, htrace⟩
  · unfold fetch_historical_data
    rw [hloop]
    rfl
  · unfold fetch_historical_data_web
    rw [hloop]
    rfl

/-- C10 witness: an equal-endpoint range returns the empty Series from both
variants with no transmitted requests. -/
theorem c10_witness :
    fetch_historical_data srcTwoBatches 5 5 4 = FetchResult.ok []
    ∧ fetch_historical_data_web srcTwoBatches 5 5 4 = FetchResultWeb.ok []
    ∧ fetchTrace srcTwoBatches 5 4 5 = [] :=
  c10_degenerate_range_is_empty_series srcTwoBatches 5 5 4 (by decide)

end CryptoHist
